import Mathlib

/-!
# Verification of the metrics / circuit-breaker core

Shallow embedding of `src/core/metrics.py` and the relevant parts of
`src/core/models.py`.  Calendar dates are modelled as integers counting
days from a fixed epoch chosen to be a Monday, so that Python's
`date.weekday()` (Monday = 0) becomes `d.emod 7` and `timedelta`
arithmetic becomes integer addition.  SQLAlchemy nullable columns become
`Option`, booleans become `Bool`, and Python float arithmetic on counts
becomes exact rational arithmetic over `ℚ`.  The record store (the
database session) is a `Store`: the lists of persisted rows together
with the current date; every query in `metrics.py` is a pure function of
such a state.
-/

/-- Row of the `daily_logs` table (`models.py`, class `DailyLog`), keeping
only the columns the metrics engine reads. -/
structure DailyLog where
  date : Int
  paralysis_signals : Bool := false
  mission : Option String := none
  mission_status : Option String := none
  deriving Repr, DecidableEq

/-- Row of the `projects` table (`models.py`, class `Project`). -/
structure Project where
  name : String
  status : String := "active"
  target_date : Option Int := none
  deriving Repr, DecidableEq

/-- Row of the `decisions` table (`models.py`, class `Decision`). -/
structure Decision where
  date : Int
  time_to_decide : Option Int := none
  made_under_paralysis : Bool := false
  deriving Repr, DecidableEq

/-- `models.py` `Decision.under_20_minutes`:
`time_to_decide is not None and time_to_decide <= 20`. -/
def Decision.under_20_minutes (d : Decision) : Bool :=
  match d.time_to_decide with
  | some t => decide (t ≤ 20)
  | none => false

/-- The record-store state: the three tables plus the current date
(`date.today()`). -/
structure Store where
  today : Int
  daily_logs : List DailyLog := []
  projects : List Project := []
  decisions : List Decision := []
  deriving Repr

/-- `metrics.py` `get_week_start`: the Monday on or before the given
date.  With the epoch a Monday, `weekday = d.emod 7`. -/
def get_week_start (d : Int) : Int :=
  d - d.emod 7

/-- `metrics.py` `get_today_status`: first `daily_logs` row whose date is
today (`.filter(DailyLog.date == today).first()`). -/
def get_today_status (s : Store) : Option DailyLog :=
  s.daily_logs.find? (fun l => l.date == s.today)

/-- Result of `get_week_stats` (the returned dict). -/
structure WeekStats where
  shipped : Nat
  total : Nat
  completion_rate : ℚ
  improving : Bool
  week_start : Int
  deriving Repr, DecidableEq

/-- The logs `get_week_stats` fetches: rows with
`target_week_start <= date <= week_end` where
`target_week_start = get_week_start(today) - 7*weeks_ago` and
`week_end = target_week_start + 6`. -/
def weekWindowLogs (s : Store) (weeks_ago : Int) : List DailyLog :=
  let target_week_start := get_week_start s.today - 7 * weeks_ago
  let week_end := target_week_start + 6
  s.daily_logs.filter (fun l =>
    decide (target_week_start ≤ l.date) && decide (l.date ≤ week_end))

/-- One evaluation of the body of `get_week_stats`, given the result
`prev` of the recursive call (`None` when `weeks_ago >= 12`). -/
def mkWeekStats (s : Store) (weeks_ago : Int) (prev : Option WeekStats) :
    WeekStats :=
  let logs := weekWindowLogs s weeks_ago
  let total := (logs.filter (fun l => l.mission.isSome)).length
  let shipped := (logs.filter (fun l => l.mission_status == some "shipped")).length
  let completion_rate : ℚ :=
    if 0 < total then (shipped : ℚ) / (total : ℚ) * 100 else 0
  let improving :=
    match prev with
    | some p => decide (completion_rate > p.completion_rate)
    | none => false
  { shipped := shipped
    total := total
    completion_rate := completion_rate
    improving := improving
    week_start := get_week_start s.today - 7 * weeks_ago }

/-- Structural engine behind `get_week_stats`: the fuel is the number of
recursive calls still to be made, which along the Python recursion is
exactly `(12 - weeks_ago).toNat` (see `get_week_stats_eq`). -/
def weekStatsCore (s : Store) : Int → Nat → WeekStats
  | weeks_ago, 0 => mkWeekStats s weeks_ago none
  | weeks_ago, n + 1 =>
      mkWeekStats s weeks_ago (some (weekStatsCore s (weeks_ago + 1) n))

/-- `metrics.py` `get_week_stats`.  The Python function recurses with
`weeks_ago + 1` while `weeks_ago < 12`; the fuel `(12 - weeks_ago).toNat`
realises exactly that call tree (`get_week_stats_eq`). -/
def get_week_stats (s : Store) (weeks_ago : Int) : WeekStats :=
  weekStatsCore s weeks_ago (12 - weeks_ago).toNat

/-- Result of `get_paralysis_rate` (the returned dict). -/
structure ParalysisStats where
  paralysis_days : Nat
  total_days : Nat
  paralysis_rate : ℚ
  recent_episodes : Nat
  deriving Repr, DecidableEq

/-- The logs `get_paralysis_rate` fetches: rows with `date >= cutoff`
where `cutoff = today - days`.  The query has no upper bound on the
date. -/
def paralysisWindowLogs (s : Store) (days : Int) : List DailyLog :=
  s.daily_logs.filter (fun l => decide (s.today - days ≤ l.date))

/-- `metrics.py` `get_paralysis_rate`.  (The query's `order_by` does not
affect the counts.) -/
def get_paralysis_rate (s : Store) (days : Int) : ParalysisStats :=
  let logs := paralysisWindowLogs s days
  let total_days := logs.length
  let paralysis_days := (logs.filter (fun l => l.paralysis_signals)).length
  let rate : ℚ :=
    if 0 < total_days then (paralysis_days : ℚ) / (total_days : ℚ) * 100 else 0
  { paralysis_days := paralysis_days
    total_days := total_days
    paralysis_rate := rate
    recent_episodes := paralysis_days }

/-- `metrics.py` `get_active_projects`: all projects with
`status == "active"`. -/
def get_active_projects (s : Store) : List Project :=
  s.projects.filter (fun p => p.status == "active")

/-- `metrics.py` `can_add_project`: active-project count `< 3`. -/
def can_add_project (s : Store) : Bool :=
  decide ((s.projects.filter (fun p => p.status == "active")).length < 3)

/-- Result of `get_decision_stats` (the returned dict). -/
structure DecisionStats where
  total_decisions : Nat
  avg_time : ℚ
  under_20min_rate : ℚ
  paralysis_decisions : Nat
  deriving Repr, DecidableEq

/-- The decisions `get_decision_stats` fetches: rows with
`date >= cutoff` where `cutoff = today - days`. -/
def decisionsInWindow (s : Store) (days : Int) : List Decision :=
  s.decisions.filter (fun d => decide (s.today - days ≤ d.date))

/-- `metrics.py` `get_decision_stats`. -/
def get_decision_stats (s : Store) (days : Int) : DecisionStats :=
  let decisions := decisionsInWindow s days
  if decisions.isEmpty then
    { total_decisions := 0
      avg_time := 0
      under_20min_rate := 0
      paralysis_decisions := 0 }
  else
    let timed := decisions.filter (fun d => d.time_to_decide.isSome)
    let under_20 := timed.filter (fun d => d.under_20_minutes)
    let paralysis := decisions.filter (fun d => d.made_under_paralysis)
    let avg_time : ℚ :=
      if timed.isEmpty then 0
      else (timed.map (fun d => ((d.time_to_decide.getD 0 : Int) : ℚ))).sum /
        (timed.length : ℚ)
    let under_20_rate : ℚ :=
      if timed.isEmpty then 0
      else (under_20.length : ℚ) / (timed.length : ℚ) * 100
    { total_decisions := decisions.length
      avg_time := avg_time
      under_20min_rate := under_20_rate
      paralysis_decisions := paralysis.length }

/-- A circuit-breaker reason.  `metrics.py` builds formatted strings; the
payload keeps the interpolated values (`f"5+ paralysis episodes ({n})"`,
`f"Completion <60% for 2 weeks ({r0}%, {r1}%)"`,
`"All projects stalled (mission blocked)"`). -/
inductive Reason where
  | paralysisEpisodes (count : Nat)
  | completionLow (rate0 rate1 : ℚ)
  | stalled
  deriving Repr, DecidableEq

/-- Whether a reason is the paralysis-rule reason. -/
def Reason.isParalysisReason : Reason → Bool
  | .paralysisEpisodes _ => true
  | _ => false

/-- Whether a reason is the completion-rate-rule reason. -/
def Reason.isCompletionReason : Reason → Bool
  | .completionLow _ _ => true
  | _ => false

/-- `metrics.py` `check_circuit_breaker_conditions`: the three rules
append their reasons in order; `should_trigger = len(reasons) > 0`. -/
def check_circuit_breaker_conditions (s : Store) : Bool × List Reason :=
  let paralysis_stats := get_paralysis_rate s 30
  let r1 : List Reason :=
    if 5 ≤ paralysis_stats.recent_episodes then
      [Reason.paralysisEpisodes paralysis_stats.recent_episodes]
    else []
  let this_week := get_week_stats s 0
  let last_week := get_week_stats s 1
  let r2 : List Reason :=
    if this_week.completion_rate < 60 ∧ last_week.completion_rate < 60 then
      [Reason.completionLow this_week.completion_rate last_week.completion_rate]
    else []
  let r3 : List Reason :=
    if decide (3 ≤ (get_active_projects s).length) &&
        (match get_today_status s with
         | some l => l.mission_status == some "blocked"
         | none => false) then
      [Reason.stalled]
    else []
  let reasons := r1 ++ r2 ++ r3
  (decide (0 < reasons.length), reasons)

/-- Number of recursive self-calls `get_week_stats` makes when entered at
a given `weeks_ago`: one per level while `weeks_ago < 12`. -/
def weekStatsDepth (weeks_ago : Int) : Nat :=
  if weeks_ago < 12 then weekStatsDepth (weeks_ago + 1) + 1 else 0
termination_by (12 - weeks_ago).toNat
decreasing_by
  omega

/-- Modelled from the spec: the claimed query window of
`get_paralysis_rate` is the inclusive range `[today - days, today]`
("Window = [today − days, today]"; "No log dated after today
contributes").  This is the spec's window, to be compared with the
code's `paralysisWindowLogs`, which has no upper bound. -/
def paralysisWindowLogsSpec (s : Store) (days : Int) : List DailyLog :=
  s.daily_logs.filter (fun l =>
    decide (s.today - days ≤ l.date) && decide (l.date ≤ s.today))

/-- The timed decisions of the window: those with a recorded
`time_to_decide`. -/
def timedDecisions (s : Store) (days : Int) : List Decision :=
  (decisionsInWindow s days).filter (fun d => d.time_to_decide.isSome)

/-! ## Concrete stores used in witnesses and counterexamples -/

/-- A store with nothing in it. -/
def emptyStore : Store := { today := 0 }

/-- Two active projects and one shipped. -/
def twoActiveStore : Store :=
  { today := 0
    projects := [{ name := "A" }, { name := "B" }, { name := "C", status := "shipped" }] }

/-- Exactly three active projects. -/
def threeActiveStore : Store :=
  { today := 0
    projects := [{ name := "A" }, { name := "B" }, { name := "C" }] }

/-- One daily log dated strictly after today (tomorrow), with paralysis
signals set. -/
def futureLogStore : Store :=
  { today := 0
    daily_logs := [{ date := 1, paralysis_signals := true }] }

/-- Current week (today is the Monday `0`, window `[0, 6]`) containing a
log with a mission marked shipped and a log with a null mission also
marked shipped. -/
def nullMissionShippedStore : Store :=
  { today := 0
    daily_logs :=
      [{ date := 0, mission := some "m", mission_status := some "shipped" },
       { date := 1, mission := none, mission_status := some "shipped" }] }

/-- Store with three active projects and today's mission blocked. -/
def stalledStore : Store :=
  { today := 0
    daily_logs := [{ date := 0, mission := some "m", mission_status := some "blocked" }]
    projects := [{ name := "A" }, { name := "B" }, { name := "C" }] }

/-- Store with three decisions in the last 30 days: one decided in 10
minutes, one in 30, one with no recorded time. -/
def decisionsStore : Store :=
  { today := 0
    decisions := [{ date := 0, time_to_decide := some 10 },
                  { date := -1, time_to_decide := some 30 },
                  { date := -2, time_to_decide := none,
                    made_under_paralysis := true }] }

/-! ## Shared lemmas -/

/-- The fuel `(12 - weeks_ago).toNat` realises the Python recursion:
`get_week_stats` evaluates its body with the recursive call at
`weeks_ago + 1` exactly when `weeks_ago < 12`, and with no recursive
call otherwise. -/
theorem get_week_stats_eq (s : Store) (w : Int) :
    get_week_stats s w =
      mkWeekStats s w (if w < 12 then some (get_week_stats s (w + 1)) else none) := by
  unfold get_week_stats
  by_cases h : w < 12
  · have h1 : (12 - w).toNat = (12 - (w + 1)).toNat + 1 := by omega
    rw [h1]
    simp [weekStatsCore, h]
  · have h1 : (12 - w).toNat = 0 := by omega
    rw [h1]
    simp [weekStatsCore, h]

theorem weekStatsCore_total (s : Store) (w : Int) (n : Nat) :
    (weekStatsCore s w n).total = (mkWeekStats s w none).total := by
  cases n <;> rfl

theorem weekStatsCore_shipped (s : Store) (w : Int) (n : Nat) :
    (weekStatsCore s w n).shipped = (mkWeekStats s w none).shipped := by
  cases n <;> rfl

theorem weekStatsCore_rate (s : Store) (w : Int) (n : Nat) :
    (weekStatsCore s w n).completion_rate = (mkWeekStats s w none).completion_rate := by
  cases n <;> rfl

/-- The count fields and the rate of `get_week_stats` do not depend on
the recursive call. -/
theorem get_week_stats_total (s : Store) (w : Int) :
    (get_week_stats s w).total = (mkWeekStats s w none).total :=
  weekStatsCore_total s w _

theorem get_week_stats_shipped (s : Store) (w : Int) :
    (get_week_stats s w).shipped = (mkWeekStats s w none).shipped :=
  weekStatsCore_shipped s w _

theorem get_week_stats_rate (s : Store) (w : Int) :
    (get_week_stats s w).completion_rate = (mkWeekStats s w none).completion_rate :=
  weekStatsCore_rate s w _

theorem recent_episodes_eq (s : Store) (days : Int) :
    (get_paralysis_rate s days).recent_episodes =
      (get_paralysis_rate s days).paralysis_days := rfl

/-- The recursion-depth function evaluates to `(12 - w).toNat`. -/
theorem weekStatsDepth_eq_aux :
    ∀ (n : Nat) (w : Int), (12 - w).toNat = n → weekStatsDepth w = n := by
  intro n
  induction n with
  | zero =>
      intro w h
      rw [weekStatsDepth]
      have hw : ¬ w < 12 := by omega
      simp [hw]
  | succ k ih =>
      intro w h
      rw [weekStatsDepth]
      have hw : w < 12 := by omega
      simp only [hw, if_true]
      exact congrArg (· + 1) (ih (w + 1) (by omega))

theorem weekStatsDepth_eq (w : Int) : weekStatsDepth w = (12 - w).toNat :=
  weekStatsDepth_eq_aux _ w rfl

/-! ## Claims -/

/-- C7: `can_add_project` returns true iff the number of projects with
status `active` is strictly less than 3; in particular it is false with
exactly 3 active projects (`threeActiveStore`) and true with exactly 2
(`twoActiveStore`). -/
theorem can_add_project_iff_under_cap :
    (∀ s : Store, can_add_project s = true ↔ (get_active_projects s).length < 3) ∧
    (get_active_projects threeActiveStore).length = 3 ∧
    can_add_project threeActiveStore = false ∧
    (get_active_projects twoActiveStore).length = 2 ∧
    can_add_project twoActiveStore = true := by
  refine ⟨fun s => ?_, by decide, by decide, by decide, by decide⟩
  simp [can_add_project, get_active_projects]

/-- C10: a week-window log with `mission_status = "shipped"` but a null
mission counts in `shipped` and not in `total`, so `get_week_stats` can
return `shipped > total` and `completion_rate > 100`: on
`nullMissionShippedStore` it returns shipped = 2, total = 1,
completion_rate = 200. -/
theorem week_stats_rate_can_exceed_100 :
    (get_week_stats nullMissionShippedStore 0).shipped = 2 ∧
    (get_week_stats nullMissionShippedStore 0).total = 1 ∧
    (get_week_stats nullMissionShippedStore 0).completion_rate = 200 ∧
    (get_week_stats nullMissionShippedStore 0).total <
      (get_week_stats nullMissionShippedStore 0).shipped ∧
    (100 : ℚ) < (get_week_stats nullMissionShippedStore 0).completion_rate := by
  have hs : (get_week_stats nullMissionShippedStore 0).shipped = 2 := by
    rw [get_week_stats_shipped]; rfl
  have ht : (get_week_stats nullMissionShippedStore 0).total = 1 := by
    rw [get_week_stats_total]; rfl
  have hr : (get_week_stats nullMissionShippedStore 0).completion_rate = 200 := by
    rw [get_week_stats_rate]
    simp [mkWeekStats, weekWindowLogs, get_week_start, nullMissionShippedStore]
    norm_num
  exact ⟨hs, ht, hr, by rw [hs, ht]; norm_num, by rw [hr]; norm_num⟩

/-- C3 counterexample: the claim's window for `get_paralysis_rate` is
`[today - days, today]` with no log dated after today contributing, but
the code's query has no upper bound: on `futureLogStore` (one log dated
tomorrow, with paralysis signals) the code counts total_days = 1 and
paralysis_days = 1, while the spec's window `[today - 30, today]`
contains no log at all. -/
theorem paralysis_rate_future_log_counterexample :
    (get_paralysis_rate futureLogStore 30).total_days = 1 ∧
    (get_paralysis_rate futureLogStore 30).paralysis_days = 1 ∧
    (paralysisWindowLogsSpec futureLogStore 30).length = 0 ∧
    futureLogStore.today < (futureLogStore.daily_logs.get ⟨0, by decide⟩).date := by
  refine ⟨?_, ?_, by decide, by decide⟩ <;> rfl

/-- C3 amended: `get_paralysis_rate` counts every log with
`date ≥ today - days` — the window is unbounded above, so logs dated
after today do contribute; `total_day_count` is the number of such logs,
`paralysis_day_count` the number of them with paralysis signals, and
`rate = paralysis_day_count / total_day_count × 100`, 0 when
`total_day_count = 0`. -/
theorem paralysis_rate_amended (s : Store) (days : Int) (h : 0 ≤ days) :
    (get_paralysis_rate s days).total_days =
      s.daily_logs.countP (fun l => decide (s.today - days ≤ l.date)) ∧
    (get_paralysis_rate s days).paralysis_days =
      s.daily_logs.countP
        (fun l => decide (s.today - days ≤ l.date) && l.paralysis_signals) ∧
    (get_paralysis_rate s days).paralysis_rate =
      (if (get_paralysis_rate s days).total_days = 0 then 0
       else ((get_paralysis_rate s days).paralysis_days : ℚ) /
         ((get_paralysis_rate s days).total_days : ℚ) * 100) := by
  refine ⟨?_, ?_, ?_⟩
  · simp [get_paralysis_rate, paralysisWindowLogs, List.countP_eq_length_filter]
  · simp [get_paralysis_rate, paralysisWindowLogs, List.countP_eq_length_filter,
      List.filter_filter, Bool.and_comm]
  · simp only [get_paralysis_rate]
    split_ifs with h1 h2 <;> simp_all

/-- C3 witness for the amended statement, at `futureLogStore` and
`days = 30`. -/
theorem paralysis_rate_amended_witness :
    (get_paralysis_rate futureLogStore 30).total_days =
      futureLogStore.daily_logs.countP
        (fun l => decide (futureLogStore.today - 30 ≤ l.date)) ∧
    (get_paralysis_rate futureLogStore 30).paralysis_days =
      futureLogStore.daily_logs.countP
        (fun l => decide (futureLogStore.today - 30 ≤ l.date) && l.paralysis_signals) ∧
    (get_paralysis_rate futureLogStore 30).paralysis_rate =
      (if (get_paralysis_rate futureLogStore 30).total_days = 0 then 0
       else ((get_paralysis_rate futureLogStore 30).paralysis_days : ℚ) /
         ((get_paralysis_rate futureLogStore 30).total_days : ℚ) * 100) :=
  paralysis_rate_amended futureLogStore 30 (by decide)

/-- C6: whenever the queried window matches zero records, each of
`get_week_stats`, `get_paralysis_rate` and `get_decision_stats` returns
with every rate and average field exactly 0 (they are total functions,
so no error and no division by zero is possible). -/
theorem metrics_zero_on_empty_window (s : Store) (w days : Int) :
    (weekWindowLogs s w = [] →
      (get_week_stats s w).total = 0 ∧ (get_week_stats s w).shipped = 0 ∧
      (get_week_stats s w).completion_rate = 0) ∧
    (paralysisWindowLogs s days = [] →
      (get_paralysis_rate s days).total_days = 0 ∧
      (get_paralysis_rate s days).paralysis_rate = 0) ∧
    (decisionsInWindow s days = [] →
      (get_decision_stats s days).total_decisions = 0 ∧
      (get_decision_stats s days).avg_time = 0 ∧
      (get_decision_stats s days).under_20min_rate = 0) := by
  refine ⟨fun h => ?_, fun h => ?_, fun h => ?_⟩
  · rw [get_week_stats_total, get_week_stats_shipped, get_week_stats_rate]
    simp [mkWeekStats, h]
  · simp [get_paralysis_rate, h]
  · simp [get_decision_stats, h]

/-- C6 witness: the empty store at `weeks_ago = 0`, `days = 30`. -/
theorem metrics_zero_on_empty_window_witness :
    ((get_week_stats emptyStore 0).total = 0 ∧
      (get_week_stats emptyStore 0).shipped = 0 ∧
      (get_week_stats emptyStore 0).completion_rate = 0) ∧
    ((get_paralysis_rate emptyStore 30).total_days = 0 ∧
      (get_paralysis_rate emptyStore 30).paralysis_rate = 0) ∧
    ((get_decision_stats emptyStore 30).total_decisions = 0 ∧
      (get_decision_stats emptyStore 30).avg_time = 0 ∧
      (get_decision_stats emptyStore 30).under_20min_rate = 0) :=
  ⟨(metrics_zero_on_empty_window emptyStore 0 30).1 rfl,
   (metrics_zero_on_empty_window emptyStore 0 30).2.1 rfl,
   (metrics_zero_on_empty_window emptyStore 0 30).2.2 rfl⟩

/-- C2: `get_week_stats` counts over the inclusive 7-day window starting
at `week_start(today) - 7*weeks_ago`: `total` is the number of logs in
the window with a non-null mission, `shipped` the number with
`mission_status = "shipped"`, and `completion_rate = shipped/total*100`
(0 when `total = 0`). -/
theorem week_stats_counts (s : Store) (w : Int) (h : 0 ≤ w) :
    (get_week_stats s w).total =
      s.daily_logs.countP (fun l =>
        decide (get_week_start s.today - 7 * w ≤ l.date) &&
        decide (l.date ≤ get_week_start s.today - 7 * w + 6) &&
        l.mission.isSome) ∧
    (get_week_stats s w).shipped =
      s.daily_logs.countP (fun l =>
        decide (get_week_start s.today - 7 * w ≤ l.date) &&
        decide (l.date ≤ get_week_start s.today - 7 * w + 6) &&
        (l.mission_status == some "shipped")) ∧
    (get_week_stats s w).completion_rate =
      (if (get_week_stats s w).total = 0 then 0
       else ((get_week_stats s w).shipped : ℚ) /
         ((get_week_stats s w).total : ℚ) * 100) := by
  refine ⟨?_, ?_, ?_⟩
  · rw [get_week_stats_total]
    simp [mkWeekStats, weekWindowLogs, List.countP_eq_length_filter,
      List.filter_filter, Bool.and_comm, Bool.and_assoc, Bool.and_left_comm]
  · rw [get_week_stats_shipped]
    simp [mkWeekStats, weekWindowLogs, List.countP_eq_length_filter,
      List.filter_filter, Bool.and_comm, Bool.and_assoc, Bool.and_left_comm]
  · rw [get_week_stats_rate, get_week_stats_total, get_week_stats_shipped]
    simp only [mkWeekStats]
    split_ifs <;> simp_all

/-- C2 witness at `nullMissionShippedStore`, `weeks_ago = 0`. -/
theorem week_stats_counts_witness :
    (get_week_stats nullMissionShippedStore 0).total =
      nullMissionShippedStore.daily_logs.countP (fun l =>
        decide (get_week_start nullMissionShippedStore.today - 7 * 0 ≤ l.date) &&
        decide (l.date ≤ get_week_start nullMissionShippedStore.today - 7 * 0 + 6) &&
        l.mission.isSome) ∧
    (get_week_stats nullMissionShippedStore 0).shipped =
      nullMissionShippedStore.daily_logs.countP (fun l =>
        decide (get_week_start nullMissionShippedStore.today - 7 * 0 ≤ l.date) &&
        decide (l.date ≤ get_week_start nullMissionShippedStore.today - 7 * 0 + 6) &&
        (l.mission_status == some "shipped")) ∧
    (get_week_stats nullMissionShippedStore 0).completion_rate =
      (if (get_week_stats nullMissionShippedStore 0).total = 0 then 0
       else ((get_week_stats nullMissionShippedStore 0).shipped : ℚ) /
         ((get_week_stats nullMissionShippedStore 0).total : ℚ) * 100) :=
  week_stats_counts nullMissionShippedStore 0 (by decide)

/-- C1: `check_circuit_breaker_conditions` triggers exactly when its
reasons list is non-empty; the rules are independent: the paralysis
reason is present iff the 30-day paralysis day count is at least 5, and
the completion reason is present iff both the current and previous
week's completion rates are below 60, each irrespective of the other
rules. -/
theorem circuit_breaker_trigger_and_rules (s : Store) :
    ((check_circuit_breaker_conditions s).1 = true ↔
      (check_circuit_breaker_conditions s).2 ≠ []) ∧
    ((check_circuit_breaker_conditions s).2.any Reason.isParalysisReason = true ↔
      5 ≤ (get_paralysis_rate s 30).paralysis_days) ∧
    ((check_circuit_breaker_conditions s).2.any Reason.isCompletionReason = true ↔
      ((get_week_stats s 0).completion_rate < 60 ∧
       (get_week_stats s 1).completion_rate < 60)) := by
  simp only [check_circuit_breaker_conditions, recent_episodes_eq]
  split_ifs with h1 h2 h3 <;>
    simp_all [Reason.isParalysisReason, Reason.isCompletionReason]

/-- Under the at-most-one-log-per-date invariant, the check made on
`get_today_status` (first log dated today, if any, has
`mission_status == "blocked"`) is equivalent to the existence of a log
for today whose mission_status is blocked. -/
theorem today_blocked_iff (s : Store)
    (huniq : s.daily_logs.Pairwise (fun a b => a.date ≠ b.date)) :
    ((match get_today_status s with
      | some l => l.mission_status == some "blocked"
      | none => false) = true) ↔
    ∃ l, l ∈ s.daily_logs ∧ l.date = s.today ∧
      l.mission_status = some "blocked" := by
  constructor
  · intro h
    cases hf : get_today_status s with
    | none => rw [hf] at h; simp at h
    | some l =>
        rw [hf] at h
        simp only [beq_iff_eq] at h
        have hf' : s.daily_logs.find? (fun x => x.date == s.today) = some l := hf
        have hmem : l ∈ s.daily_logs := List.mem_of_find?_eq_some hf'
        have hdate : l.date = s.today := by
          have hp := List.find?_some hf'
          simpa using hp
        exact ⟨l, hmem, hdate, h⟩
  · rintro ⟨l, hmem, hdate, hstat⟩
    have hsome : (get_today_status s).isSome := by
      unfold get_today_status
      rw [List.find?_isSome]
      exact ⟨l, hmem, by simp [hdate]⟩
    cases hf : get_today_status s with
    | none => rw [hf] at hsome; simp at hsome
    | some l' =>
        have hf' : s.daily_logs.find? (fun x => x.date == s.today) = some l' := hf
        have hmem' : l' ∈ s.daily_logs := List.mem_of_find?_eq_some hf'
        have hdate' : l'.date = s.today := by
          have := List.find?_some hf'
          simpa using this
        have hll : l' = l := by
          by_contra hne
          have hsymm : Symmetric (fun a b : DailyLog => a.date ≠ b.date) :=
            fun a b hab => (Ne.symm hab)
          exact huniq.forall hsymm hmem' hmem hne (hdate'.trans hdate.symm)
        simp [hll, hstat]

/-- C4: the stalled-projects reason is added exactly when there are at
least 3 active projects and the (unique) daily log for today has
`mission_status = "blocked"`; no individual project's status is
consulted beyond counting the active ones. -/
theorem stalled_rule (s : Store)
    (huniq : s.daily_logs.Pairwise (fun a b => a.date ≠ b.date)) :
    (Reason.stalled ∈ (check_circuit_breaker_conditions s).2 ↔
      (3 ≤ (get_active_projects s).length ∧
       ∃ l, l ∈ s.daily_logs ∧ l.date = s.today ∧
         l.mission_status = some "blocked")) := by
  have hiff := today_blocked_iff s huniq
  simp only [check_circuit_breaker_conditions]
  split_ifs with h1 h2 h3 <;> simp_all

/-- C4 witness at `stalledStore`. -/
theorem stalled_rule_witness :
    Reason.stalled ∈ (check_circuit_breaker_conditions stalledStore).2 ↔
      (3 ≤ (get_active_projects stalledStore).length ∧
       ∃ l, l ∈ stalledStore.daily_logs ∧ l.date = stalledStore.today ∧
         l.mission_status = some "blocked") :=
  stalled_rule stalledStore (by simp [stalledStore])

/-- C5: for `0 ≤ weeks_ago < 12`, `improving` compares this week's
completion rate with the recursive call's at `weeks_ago + 1`; from
`weeks_ago ≥ 12` on, `improving` is false with no prior comparison. -/
theorem week_stats_improving (s : Store) (w : Int) :
    (0 ≤ w → w < 12 →
      ((get_week_stats s w).improving = true ↔
        (get_week_stats s w).completion_rate >
          (get_week_stats s (w + 1)).completion_rate)) ∧
    (12 ≤ w → (get_week_stats s w).improving = false) := by
  constructor
  · intro h0 h12
    rw [get_week_stats_rate s w]
    rw [get_week_stats_eq s w]
    simp [h12, mkWeekStats]
  · intro h12
    rw [get_week_stats_eq s w]
    have hlt : ¬ w < 12 := by omega
    simp [hlt, mkWeekStats]

/-- C5 witness at `nullMissionShippedStore`, `weeks_ago = 0` and `12`. -/
theorem week_stats_improving_witness :
    ((get_week_stats nullMissionShippedStore 0).improving = true ↔
      (get_week_stats nullMissionShippedStore 0).completion_rate >
        (get_week_stats nullMissionShippedStore (0 + 1)).completion_rate) ∧
    (get_week_stats nullMissionShippedStore 12).improving = false :=
  ⟨(week_stats_improving nullMissionShippedStore 0).1 (by decide) (by decide),
   (week_stats_improving nullMissionShippedStore 12).2 (by decide)⟩

/-- Filtering the under-20-minutes decisions from the timed ones is the
same as filtering them from the whole window, since a decision without a
recorded time is never under 20 minutes. -/
theorem filter_under20_timed (D : List Decision) :
    D.filter (fun d => d.under_20_minutes && d.time_to_decide.isSome) =
      D.filter (fun d => d.under_20_minutes) := by
  apply List.filter_congr
  intro d _
  cases hd : d.time_to_decide <;> simp [Decision.under_20_minutes, hd]

/-- C8: `avg_time` is computed only over window decisions with a
recorded `time_to_decide` (0 if none have one); `under_20min_rate`
divides the count of window decisions with `time_to_decide ≤ 20` by the
count of those with a recorded time, times 100 (0 when that count is 0);
a decision with absent `time_to_decide` never counts as under 20
minutes. -/
theorem decision_stats_timing (s : Store) (days : Int) (h : 0 ≤ days) :
    (get_decision_stats s days).avg_time =
      (if timedDecisions s days = [] then 0
       else ((timedDecisions s days).map
           (fun d => ((d.time_to_decide.getD 0 : Int) : ℚ))).sum /
         ((timedDecisions s days).length : ℚ)) ∧
    (get_decision_stats s days).under_20min_rate =
      (if timedDecisions s days = [] then 0
       else (((decisionsInWindow s days).countP
           (fun d => d.under_20_minutes)) : ℚ) /
         ((timedDecisions s days).length : ℚ) * 100) ∧
    (∀ d, d ∈ decisionsInWindow s days → d.time_to_decide = none →
      d.under_20_minutes = false) := by
  refine ⟨?_, ?_, fun d _ hnone => by simp [Decision.under_20_minutes, hnone]⟩
  · by_cases hD : (decisionsInWindow s days).isEmpty
    · have hD' : decisionsInWindow s days = [] := by simpa using hD
      simp [get_decision_stats, hD', timedDecisions]
    · simp [get_decision_stats, hD, timedDecisions, List.isEmpty_iff]
  · by_cases hD : (decisionsInWindow s days).isEmpty
    · have hD' : decisionsInWindow s days = [] := by simpa using hD
      simp [get_decision_stats, hD', timedDecisions]
    · simp [get_decision_stats, hD, timedDecisions, List.isEmpty_iff,
        List.countP_eq_length_filter, filter_under20_timed]

/-- C8 witness at `decisionsStore`, `days = 30`. -/
theorem decision_stats_timing_witness :
    (get_decision_stats decisionsStore 30).avg_time =
      (if timedDecisions decisionsStore 30 = [] then 0
       else ((timedDecisions decisionsStore 30).map
           (fun d => ((d.time_to_decide.getD 0 : Int) : ℚ))).sum /
         ((timedDecisions decisionsStore 30).length : ℚ)) ∧
    (get_decision_stats decisionsStore 30).under_20min_rate =
      (if timedDecisions decisionsStore 30 = [] then 0
       else (((decisionsInWindow decisionsStore 30).countP
           (fun d => d.under_20_minutes)) : ℚ) /
         ((timedDecisions decisionsStore 30).length : ℚ) * 100) ∧
    (∀ d, d ∈ decisionsInWindow decisionsStore 30 → d.time_to_decide = none →
      d.under_20_minutes = false) :=
  decision_stats_timing decisionsStore 30 (by decide)

/-- C9: `get_week_stats` is a total function; its recursion is the call
at `weeks_ago + 1` made exactly while `weeks_ago < 12`, and the number
of self-calls from `weeks_ago = w` is `weekStatsDepth w`, which is at
most `max 0 (12 - w)`. -/
theorem week_stats_termination (s : Store) (w : Int) :
    get_week_stats s w =
      mkWeekStats s w (if w < 12 then some (get_week_stats s (w + 1)) else none) ∧
    get_week_stats s w = weekStatsCore s w (weekStatsDepth w) ∧
    (weekStatsDepth w : Int) ≤ max 0 (12 - w) := by
  refine ⟨get_week_stats_eq s w, ?_, ?_⟩
  · rw [weekStatsDepth_eq]
    rfl
  · rw [weekStatsDepth_eq]
    omega
